import Mathlib

/-!
Verification of `scripts/run_cmake_precommit.py`.

The script is shallowly embedded as pure Lean functions.  Effects are made
explicit: launching a child process is a call to an oracle `World.exec`
supplied by the environment, and every function returns the list of commands
it launched together with the list of strings it wrote to the error stream,
plus an `Except` value modelling a Python exception escaping the function.
-/

namespace RunCmakePrecommit

/-- Result of a successfully launched child process (`subprocess.CompletedProcess`):
only the exit code is observed by the script. -/
structure ProcResult where
  returncode : Int
deriving Repr, DecidableEq

/-- Exceptions the script can raise while running a command:
`calledProcessError` models `subprocess.CalledProcessError(returncode, command)`
raised by `run`; `launchFailure` models the `OSError`/`FileNotFoundError` that
`subprocess.run` raises when the program cannot be located or executed. -/
inductive RunError where
  | calledProcessError (returncode : Int) (command : List String)
  | launchFailure (command : List String)
deriving Repr, DecidableEq

instance {ε α : Type} [DecidableEq ε] [DecidableEq α] :
    DecidableEq (Except ε α) := fun x y =>
  match x, y with
  | .ok a, .ok b => if h : a = b then .isTrue (by rw [h]) else .isFalse (by simp [h])
  | .ok _, .error _ => .isFalse (by simp)
  | .error _, .ok _ => .isFalse (by simp)
  | .error a, .error b => if h : a = b then .isTrue (by rw [h]) else .isFalse (by simp [h])

/-- The environment one run of the script observes:
`system` is `platform.system()`, `pwshOnPath` tells whether
`shutil.which("pwsh")` finds an executable, and `exec` is the process-launch
facility (`subprocess.run`): for a command it either yields the child's
result or fails to launch (`.error ()`, the `OSError` case). -/
structure World where
  system : String
  pwshOnPath : Bool
  exec : List String → Except Unit ProcResult

/-- Models `REPO_ROOT = Path(__file__).resolve().parent.parent`: an opaque
absolute path; its concrete value never matters to the script's logic. -/
def REPO_ROOT : String := "<repo-root>"

/-- Log of the externally visible effects of a piece of the script:
the commands launched, in order, and the strings written to `sys.stderr`,
in order (one entry per `sys.stderr.write` call). -/
structure EffectLog where
  launched : List (List String)
  stderrOut : List String
deriving Repr, DecidableEq

/-- Models `run(command, *, allow_failure=False)`: launch the command; if the child
exited non-zero and failure is not allowed, raise
`CalledProcessError(returncode, command)`; otherwise return the result.
A launch failure from `subprocess.run` itself propagates unconditionally.
The first component records the commands this call launched. -/
def run (w : World) (command : List String) (allow_failure : Bool := false) :
    List (List String) × Except RunError ProcResult :=
  ([command],
    match w.exec command with
    | .error _ => .error (.launchFailure command)
    | .ok result =>
      if result.returncode ≠ 0 ∧ allow_failure = false then
        .error (.calledProcessError result.returncode command)
      else
        .ok result)

/-- The installer command chosen by `install_dependencies` (lines 19–27):
on Windows a PowerShell invocation of `scripts/install_dev_dependencies.ps1`,
preferring `pwsh` over `powershell` when it is on the search path; on any
other platform a direct invocation of `scripts/install_dev_dependencies.sh`. -/
def installerCommand (w : World) : List String :=
  let scripts_dir := REPO_ROOT ++ "/scripts"
  if w.system = "Windows" then
    let installer := scripts_dir ++ "/install_dev_dependencies.ps1"
    let shell := if w.pwshOnPath then "pwsh" else "powershell"
    [shell, "-NoProfile", "-ExecutionPolicy", "Bypass", "-File", installer]
  else
    let installer := scripts_dir ++ "/install_dev_dependencies.sh"
    [installer]

/-- The fixed warning written to `sys.stderr` when the installer exits
non-zero (lines 31–34): a single newline-terminated line. -/
def installerWarning : String :=
  "Skipping dependency installation for pre-commit: installer failed. " ++
  "Run scripts/install_dev_dependencies.* manually if toolchain is missing.\n"

/-- Models `install_dependencies()`: choose the platform-specific installer command,
run it with `allow_failure=True`, and write the warning to the error stream
when the child exited non-zero.  Returns the effect log plus `.ok ()` when
control returns normally, or the propagated exception. -/
def install_dependencies (w : World) : EffectLog × Except RunError Unit :=
  let command := installerCommand w
  match run w command true with
  | (launched, .error e) => (⟨launched, []⟩, .error e)
  | (launched, .ok result) =>
    if result.returncode ≠ 0 then
      (⟨launched, [installerWarning]⟩, .ok ())
    else
      (⟨launched, []⟩, .ok ())

/-- The fixed build-configuration command of `main` (line 39). -/
def cmakeCommand : List String :=
  ["cmake", "-Bbuild", "-DCMAKE_EXPORT_COMPILE_COMMANDS=ON"]

/-- Models `main()`: run `install_dependencies()` (propagating any exception), then
`run` the cmake command with the default `allow_failure=False`. -/
def main (w : World) : EffectLog × Except RunError Unit :=
  match install_dependencies w with
  | (log, .error e) => (log, .error e)
  | (log, .ok ()) =>
    match run w cmakeCommand with
    | (launched, .error e) =>
      (⟨log.launched ++ launched, log.stderrOut⟩, .error e)
    | (launched, .ok _) =>
      (⟨log.launched ++ launched, log.stderrOut⟩, .ok ())

/-- Exit status of the overall process (`if __name__ == "__main__": main()`):
`0` when `main` returns normally; `1` when an exception escapes `main`,
since CPython terminates with interpreter status 1 on an uncaught exception
(it does not reuse the exit code stored inside a `CalledProcessError`). -/
def processExit (w : World) : Int :=
  match (main w).2 with
  | .ok _ => 0
  | .error _ => 1

/-! ### Concrete environments used to instantiate the theorems -/

/-- A non-Windows host where the installer command exits with `installerExit`
and the cmake command exits with `cmakeExit`; every launch succeeds. -/
def linuxWorld (installerExit cmakeExit : Int) : World :=
  { system := "Linux"
    pwshOnPath := false
    exec := fun c =>
      if c = cmakeCommand then .ok ⟨cmakeExit⟩ else .ok ⟨installerExit⟩ }

/-- A Windows host, with `shutil.which("pwsh")` succeeding exactly when
`pwsh` holds; the installer exits with `installerExit` and cmake with
`cmakeExit`. -/
def windowsWorld (pwsh : Bool) (installerExit cmakeExit : Int) : World :=
  { system := "Windows"
    pwshOnPath := pwsh
    exec := fun c =>
      if c = cmakeCommand then .ok ⟨cmakeExit⟩ else .ok ⟨installerExit⟩ }

/-- A non-Windows host whose launch facility differs from `linuxWorld`
on unobserved commands (the empty command fails to launch) but agrees on
the installer and cmake commands. -/
def altLinuxWorld (installerExit cmakeExit : Int) : World :=
  { system := "Linux"
    pwshOnPath := false
    exec := fun c =>
      if c = [] then .error ()
      else if c = cmakeCommand then .ok ⟨cmakeExit⟩ else .ok ⟨installerExit⟩ }

/-- A non-Windows host where launching the installer command itself fails
(the `OSError` case of `subprocess.run`), while cmake would succeed. -/
def launchFailWorld : World :=
  { system := "Linux"
    pwshOnPath := false
    exec := fun c =>
      if c = cmakeCommand then .ok ⟨0⟩ else .error () }

/-! ### Helper lemmas -/

/-- Unfolding `run` when the launch succeeds and failure is allowed. -/
theorem run_allow_launch_ok (w : World) (command : List String) (r : ProcResult)
    (h : w.exec command = .ok r) :
    run w command true = ([command], .ok r) := by
  simp [run, h]

/-- Unfolding `run` when the launch itself fails: the error propagates no
matter whether failure is allowed. -/
theorem run_launch_fail (w : World) (command : List String) (a : Bool)
    (h : w.exec command = .error ()) :
    run w command a = ([command], .error (.launchFailure command)) := by
  simp [run, h]

/-- Unfolding `run` with the default `allow_failure := false` when the launch
succeeds: raises exactly when the exit code is non-zero. -/
theorem run_strict_launch_ok (w : World) (r : ProcResult)
    (command : List String) (h : w.exec command = .ok r) :
    run w command =
      ([command],
        if r.returncode ≠ 0 then
          .error (.calledProcessError r.returncode command)
        else .ok r) := by
  by_cases hr : r.returncode = 0 <;> simp [run, h, hr]

/-- Unfolding `install_dependencies` when the installer launch succeeds:
control returns normally and the warning appears exactly on non-zero exit. -/
theorem install_dependencies_launch_ok (w : World) (r : ProcResult)
    (h : w.exec (installerCommand w) = .ok r) :
    install_dependencies w =
      (⟨[installerCommand w],
        if r.returncode ≠ 0 then [installerWarning] else []⟩, .ok ()) := by
  by_cases hr : r.returncode = 0 <;>
    simp [install_dependencies, run_allow_launch_ok w _ r h, hr]

/-- Unfolding `install_dependencies` when the installer launch itself fails:
the exception propagates to the caller. -/
theorem install_dependencies_launch_fail (w : World)
    (h : w.exec (installerCommand w) = .error ()) :
    install_dependencies w =
      (⟨[installerCommand w], []⟩,
        .error (.launchFailure (installerCommand w))) := by
  simp [install_dependencies, run_launch_fail w _ true h]

/-- Unfolding `main` when the installer launch succeeds: both commands are
launched in order, the warning appears exactly on non-zero installer exit, and
the overall outcome is that of the strict cmake invocation. -/
theorem main_installer_launch_ok (w : World) (r : ProcResult)
    (h : w.exec (installerCommand w) = .ok r) :
    main w =
      (⟨[installerCommand w, cmakeCommand],
        if r.returncode ≠ 0 then [installerWarning] else []⟩,
        ((run w cmakeCommand).2).map (fun _ => ())) := by
  rcases hx : w.exec cmakeCommand with u | s
  · simp [main, install_dependencies_launch_ok w r h, run, hx, Except.map]
  · by_cases hs : s.returncode = 0 <;>
      simp [main, install_dependencies_launch_ok w r h, run, hx, hs, Except.map]

/-- Unfolding `main` when the installer launch itself fails: the exception
escapes `main` before the cmake command is ever launched. -/
theorem main_installer_launch_fail (w : World)
    (h : w.exec (installerCommand w) = .error ()) :
    main w = (⟨[installerCommand w], []⟩,
      .error (.launchFailure (installerCommand w))) := by
  simp [main, install_dependencies_launch_fail w h]

/-! ### Claims -/

/-- C1 (counterexample): in the concrete run `linuxWorld 0 2` the installer
exits 0 and the cmake command exits with the non-zero code 2, yet the overall
process exit status is 1, not 2: the uncaught `CalledProcessError` makes
CPython terminate with interpreter status 1, so the final status does not
match the cmake exit code as the claim states. -/
theorem c1_counterexample :
    (linuxWorld 0 2).exec (installerCommand (linuxWorld 0 2)) = .ok ⟨0⟩ ∧
    (linuxWorld 0 2).exec cmakeCommand = .ok ⟨2⟩ ∧
    (2 : Int) ≠ 0 ∧
    processExit (linuxWorld 0 2) ≠ 2 := by decide

/-- C1 (amended): for every run in which the installer command launches and
the build-configuration command exits with a non-zero code, the overall
process terminates with the non-zero exit status 1 — the interpreter status
for the uncaught error, which records cmake's exit code and command but is
not numerically equal to cmake's code in general — and no further commands
are launched after the configuration step. -/
theorem c1_cmake_failure_fatal (w : World) (r : ProcResult) (c : Int)
    (hinst : w.exec (installerCommand w) = .ok r)
    (hcmake : w.exec cmakeCommand = .ok ⟨c⟩)
    (hc : c ≠ 0) :
    processExit w = 1 ∧
    (main w).2 = .error (.calledProcessError c cmakeCommand) ∧
    (main w).1.launched = [installerCommand w, cmakeCommand] := by
  have hmain := main_installer_launch_ok w r hinst
  have hrun := run_strict_launch_ok w ⟨c⟩ cmakeCommand hcmake
  refine ⟨?_, ?_, ?_⟩ <;> simp [processExit, hmain, hrun, hc, Except.map]

/-- C1 (witness): the amended claim instantiated at the run `linuxWorld 0 2`. -/
theorem c1_witness :
    processExit (linuxWorld 0 2) = 1 ∧
    (main (linuxWorld 0 2)).2 = .error (.calledProcessError 2 cmakeCommand) ∧
    (main (linuxWorld 0 2)).1.launched =
      [installerCommand (linuxWorld 0 2), cmakeCommand] :=
  c1_cmake_failure_fatal (linuxWorld 0 2) ⟨0⟩ 2 (by decide) (by decide) (by decide)

/-- C2: whenever the installer command executes (its launch succeeds),
`install_dependencies` returns normally with no exception, the warning is on
the error stream iff the installer exited non-zero (and the stream is empty
iff it exited zero), and the configuration step still runs afterwards: `main`
launches the installer command and then the cmake command. -/
theorem c2_installer_failure_tolerated (w : World) (r : ProcResult)
    (h : w.exec (installerCommand w) = .ok r) :
    (install_dependencies w).2 = .ok () ∧
    ((install_dependencies w).1.stderrOut = [installerWarning] ↔
      r.returncode ≠ 0) ∧
    ((install_dependencies w).1.stderrOut = [] ↔ r.returncode = 0) ∧
    (main w).1.launched = [installerCommand w, cmakeCommand] := by
  have hid := install_dependencies_launch_ok w r h
  have hmain := main_installer_launch_ok w r h
  by_cases hr : r.returncode = 0 <;> simp [hid, hmain, hr]

/-- C2 (witness): instantiated at the run `linuxWorld 1 0`. -/
theorem c2_witness :
    (install_dependencies (linuxWorld 1 0)).2 = .ok () ∧
    ((install_dependencies (linuxWorld 1 0)).1.stderrOut = [installerWarning] ↔
      (ProcResult.mk 1).returncode ≠ 0) ∧
    ((install_dependencies (linuxWorld 1 0)).1.stderrOut = [] ↔
      (ProcResult.mk 1).returncode = 0) ∧
    (main (linuxWorld 1 0)).1.launched =
      [installerCommand (linuxWorld 1 0), cmakeCommand] :=
  c2_installer_failure_tolerated (linuxWorld 1 0) ⟨1⟩ (by decide)

/-- C3: two runs that agree on the host platform, on `pwsh` availability and
on the behaviour of the cmake launch, but in which the installer child may
exit with different codes, finish with the same overall process exit status:
the installer outcome never affects the final exit code. -/
theorem c3_final_status_independent_of_installer_exit
    (w1 w2 : World) (r1 r2 : ProcResult)
    (hsys : w1.system = w2.system)
    (hpwsh : w1.pwshOnPath = w2.pwshOnPath)
    (h1 : w1.exec (installerCommand w1) = .ok r1)
    (h2 : w2.exec (installerCommand w2) = .ok r2)
    (hcmake : w1.exec cmakeCommand = w2.exec cmakeCommand) :
    processExit w1 = processExit w2 := by
  have hm1 := main_installer_launch_ok w1 r1 h1
  have hm2 := main_installer_launch_ok w2 r2 h2
  have hcm : (run w1 cmakeCommand).2 = (run w2 cmakeCommand).2 := by
    simp [run, hcmake]
  unfold processExit
  rw [hm1, hm2, hcm]

/-- C3 (witness): the run `linuxWorld 1 2` (installer exits 1) and the run
`altLinuxWorld 0 2` (installer exits 0) have the same final status. -/
theorem c3_witness :
    processExit (linuxWorld 1 2) = processExit (altLinuxWorld 0 2) :=
  c3_final_status_independent_of_installer_exit
    (linuxWorld 1 2) (altLinuxWorld 0 2) ⟨1⟩ ⟨0⟩ rfl rfl
    (by decide) (by decide) (by decide)

/-- C4: on a non-Windows host where the installer script exits 1 and the
cmake command exits 0, exactly one warning line is written to the error
stream and the overall process exit status is 0. -/
theorem c4_end_to_end_warning_once_exit_zero (w : World)
    (hsys : w.system ≠ "Windows")
    (hinst : w.exec (installerCommand w) = .ok ⟨1⟩)
    (hcmake : w.exec cmakeCommand = .ok ⟨0⟩) :
    (main w).1.stderrOut = [installerWarning] ∧ processExit w = 0 := by
  have hmain := main_installer_launch_ok w ⟨1⟩ hinst
  have hrun := run_strict_launch_ok w ⟨0⟩ cmakeCommand hcmake
  constructor
  · simp [hmain]
  · simp [processExit, hmain, hrun, Except.map]

/-- C4 (witness): instantiated at the run `linuxWorld 1 0`. -/
theorem c4_witness :
    (main (linuxWorld 1 0)).1.stderrOut = [installerWarning] ∧
    processExit (linuxWorld 1 0) = 0 :=
  c4_end_to_end_warning_once_exit_zero (linuxWorld 1 0)
    (by decide) (by decide) (by decide)

/-- C5: exactly one installer command is selected per run, determined by the
host platform identifier: on Windows a shell invocation (via the chosen
PowerShell executable) targeting `scripts/install_dev_dependencies.ps1`, and
on any other platform the direct invocation of
`scripts/install_dev_dependencies.sh`. -/
theorem c5_installer_command_selection (w : World) :
    (w.system = "Windows" →
      installerCommand w =
        [(if w.pwshOnPath then "pwsh" else "powershell"), "-NoProfile",
          "-ExecutionPolicy", "Bypass", "-File",
          REPO_ROOT ++ "/scripts/install_dev_dependencies.ps1"]) ∧
    (w.system ≠ "Windows" →
      installerCommand w =
        [REPO_ROOT ++ "/scripts/install_dev_dependencies.sh"]) := by
  constructor <;> intro h <;> simp [installerCommand, h] <;> decide

/-- C5 (witness): instantiated on a Windows host with `pwsh` available and
on a non-Windows host. -/
theorem c5_witness :
    installerCommand (windowsWorld true 0 0) =
      ["pwsh", "-NoProfile", "-ExecutionPolicy", "Bypass", "-File",
        REPO_ROOT ++ "/scripts/install_dev_dependencies.ps1"] ∧
    installerCommand (linuxWorld 0 0) =
      [REPO_ROOT ++ "/scripts/install_dev_dependencies.sh"] :=
  ⟨(c5_installer_command_selection (windowsWorld true 0 0)).1 rfl,
    (c5_installer_command_selection (linuxWorld 0 0)).2 (by decide)⟩

/-- C6: on a Windows host the shell heading the installer command is `pwsh`
when it is discoverable on the search path and `powershell` otherwise. -/
theorem c6_windows_shell_preference (w : World) (h : w.system = "Windows") :
    (w.pwshOnPath = true → (installerCommand w).head? = some "pwsh") ∧
    (w.pwshOnPath = false →
      (installerCommand w).head? = some "powershell") := by
  constructor <;> intro hp <;> simp [installerCommand, h, hp]

/-- C6 (witness): instantiated on Windows hosts with and without `pwsh`. -/
theorem c6_witness :
    (installerCommand (windowsWorld true 0 0)).head? = some "pwsh" ∧
    (installerCommand (windowsWorld false 0 0)).head? = some "powershell" :=
  ⟨(c6_windows_shell_preference (windowsWorld true 0 0) rfl).1 rfl,
    (c6_windows_shell_preference (windowsWorld false 0 0) rfl).2 rfl⟩

/-- C7: when launching the installer command itself fails (the `OSError`
case, as opposed to the installer running and exiting non-zero), the launch
error escapes `main`, the overall process status is non-zero, and the cmake
command is never launched: the failure is not swallowed by the installer
step's failure tolerance. -/
theorem c7_installer_launch_failure_fatal (w : World)
    (h : w.exec (installerCommand w) = .error ()) :
    processExit w = 1 ∧ processExit w ≠ 0 ∧
    (main w).2 = .error (.launchFailure (installerCommand w)) ∧
    (main w).1.launched = [installerCommand w] := by
  have hmain := main_installer_launch_fail w h
  refine ⟨?_, ?_, ?_, ?_⟩ <;> simp [processExit, hmain]

/-- C7 (witness): instantiated at `launchFailWorld`. -/
theorem c7_witness :
    processExit launchFailWorld = 1 ∧ processExit launchFailWorld ≠ 0 ∧
    (main launchFailWorld).2 =
      .error (.launchFailure (installerCommand launchFailWorld)) ∧
    (main launchFailWorld).1.launched = [installerCommand launchFailWorld] :=
  c7_installer_launch_failure_fatal launchFailWorld (by decide)

/-- C8: for every command whose launch succeeds with result `r`,
`run` with `allow_failure := false` raises `CalledProcessError` carrying
exactly that exit code and command iff the exit code is non-zero, returns
the result when the code is zero, and `run` with `allow_failure := true`
always returns the result. -/
theorem c8_run_raise_contract (w : World) (command : List String)
    (r : ProcResult) (h : w.exec command = .ok r) :
    ((run w command).2 =
        .error (.calledProcessError r.returncode command) ↔
      r.returncode ≠ 0) ∧
    (r.returncode = 0 → (run w command).2 = .ok r) ∧
    (run w command true).2 = .ok r := by
  have hs := run_strict_launch_ok w r command h
  have ha := run_allow_launch_ok w command r h
  by_cases hr : r.returncode = 0 <;> simp [hs, ha, hr]

/-- C8 (witness): instantiated at the cmake command in `linuxWorld 0 2`,
where the child exits with code 2. -/
theorem c8_witness :
    ((run (linuxWorld 0 2) cmakeCommand).2 =
        .error (.calledProcessError (ProcResult.mk 2).returncode
          cmakeCommand) ↔
      (ProcResult.mk 2).returncode ≠ 0) ∧
    ((ProcResult.mk 2).returncode = 0 →
      (run (linuxWorld 0 2) cmakeCommand).2 = .ok ⟨2⟩) ∧
    (run (linuxWorld 0 2) cmakeCommand true).2 = .ok ⟨2⟩ :=
  c8_run_raise_contract (linuxWorld 0 2) cmakeCommand ⟨2⟩ (by decide)

/-- C9: two runs that agree on the host platform identifier, on `pwsh`
availability, and on the launch outcomes of the installer and cmake
commands behave identically: `main` launches the same command sequence,
writes the same error-stream output, returns the same outcome, and the
overall process finishes with the same exit status. -/
theorem c9_observational_determinism (w1 w2 : World)
    (hsys : w1.system = w2.system)
    (hpwsh : w1.pwshOnPath = w2.pwshOnPath)
    (hinst : w1.exec (installerCommand w1) = w2.exec (installerCommand w2))
    (hcmake : w1.exec cmakeCommand = w2.exec cmakeCommand) :
    main w1 = main w2 ∧ processExit w1 = processExit w2 := by
  have hcmd : installerCommand w1 = installerCommand w2 := by
    simp [installerCommand, hsys, hpwsh]
  have hmain : main w1 = main w2 := by
    rcases hx : w2.exec (installerCommand w2) with u | s
    · cases u
      rw [main_installer_launch_fail w1 (hinst.trans hx),
        main_installer_launch_fail w2 hx, hcmd]
    · have hcm : (run w1 cmakeCommand).2 = (run w2 cmakeCommand).2 := by
        simp [run, hcmake]
      rw [main_installer_launch_ok w1 s (hinst.trans hx),
        main_installer_launch_ok w2 s hx, hcmd, hcm]
  exact ⟨hmain, by simp [processExit, hmain]⟩

/-- C9 (witness): the runs `linuxWorld 1 2` and `altLinuxWorld 1 2` differ
in their launch facility on unobserved commands but agree on the observed
ones, and behave identically. -/
theorem c9_witness :
    main (linuxWorld 1 2) = main (altLinuxWorld 1 2) ∧
    processExit (linuxWorld 1 2) = processExit (altLinuxWorld 1 2) :=
  c9_observational_determinism (linuxWorld 1 2) (altLinuxWorld 1 2)
    rfl rfl (by decide) (by decide)

/-- C10: whenever `install_dependencies` writes anything to the error
stream, it is exactly one fixed newline-terminated warning line, identical
for every platform and every non-zero installer exit code. -/
theorem c10_warning_fixed_single_line (w : World)
    (h : (install_dependencies w).1.stderrOut ≠ []) :
    (install_dependencies w).1.stderrOut =
      ["Skipping dependency installation for pre-commit: installer failed. " ++
        "Run scripts/install_dev_dependencies.* manually if toolchain is missing.\n"] := by
  rcases hx : w.exec (installerCommand w) with u | s
  · cases u
    rw [install_dependencies_launch_fail w hx] at h
    simp at h
  · rw [install_dependencies_launch_ok w s hx] at h ⊢
    by_cases hs : s.returncode = 0
    · simp [hs] at h
    · simp [hs, installerWarning]

/-- C10 (witness): instantiated at the run `linuxWorld 1 0`, where the
warning is written. -/
theorem c10_witness :
    (install_dependencies (linuxWorld 1 0)).1.stderrOut ≠ [] ∧
    (install_dependencies (linuxWorld 1 0)).1.stderrOut =
      ["Skipping dependency installation for pre-commit: installer failed. " ++
        "Run scripts/install_dev_dependencies.* manually if toolchain is missing.\n"] :=
  ⟨by decide, c10_warning_fixed_single_line (linuxWorld 1 0) (by decide)⟩

end RunCmakePrecommit
